import Mathlib

/-!
# Verification of the better-rental-data import pipeline

Shallow embedding of the repository's TypeScript sources:

* `src/unnamed/part_000` — the import script (`importListings`,
  `extractBedroomCount`, `extractBathroomCount`, `determineListingCategory`);
* `src/unnamed/part_001` — the Prisma schema (`Listing`, `PriceHistory`);
* `src/src/categorize-listings.ts` — the Gemini batch classifier
  (`parseAIResponse`, `processBatch`, `categorizeAllListings`).

Strings are represented by Lean `String` / `List Char`.  JavaScript string
primitives (`includes`, `trim`, `split`, `toLowerCase`, the few regexes the
code uses) are embedded as executable functions over `List Char` below;
JS truthiness of a string is `s ≠ ""`, of a number `n ≠ 0`, of an optional
value `Option.isSome` combined with the above.  The monetary pipeline
(`parseFloat`, the `* 100` product, `Math.round`) is embedded bit-faithfully
to IEEE binary64: finite doubles are carried exactly as `±m·2^u` and every
rounding step follows round-to-nearest-even (see the monetary section).
-/

/-! ## JavaScript string primitives over `List Char` -/

/-- JS whitespace class (`\s`, `String.prototype.trim`), restricted to the
ASCII whitespace the data can contain. -/
def isJsWs (c : Char) : Bool :=
  c = ' ' || c = '\t' || c = '\r' || c = '\n'

/-- JS line terminators: the characters that `.` does not match. -/
def isLineTerm (c : Char) : Bool :=
  c = '\n' || c = '\r' || c.toNat = 0x2028 || c.toNat = 0x2029

/-- ASCII lower-casing, as applied by `toLowerCase` to the data at hand. -/
def toLowerL (l : List Char) : List Char := l.map Char.toLower

/-- `a.startsWith b` on character lists. -/
def startsWithL : List Char → List Char → Bool
  | _, [] => true
  | [], _ :: _ => false
  | a :: as, b :: bs => a = b && startsWithL as bs

/-- `hay.includes(needle)` — JS substring containment. -/
def containsL : List Char → List Char → Bool
  | [], needle => needle.isEmpty
  | h :: t, needle => startsWithL (h :: t) needle || containsL t needle

/-- `hay.includes(needle)` on `String`s. -/
def containsS (hay needle : String) : Bool := containsL hay.toList needle.toList

/-- `String.prototype.trim`. -/
def trimL (l : List Char) : List Char :=
  ((l.dropWhile isJsWs).reverse.dropWhile isJsWs).reverse

/-- `response.split('\n')`. -/
def splitLinesL : List Char → List (List Char)
  | [] => [[]]
  | c :: cs =>
    if c = '\n' then [] :: splitLinesL cs
    else
      match splitLinesL cs with
      | [] => [[c]]
      | l :: ls => (c :: l) :: ls

/-- Numeric value of a non-empty decimal digit run (`parseInt` on the
capture of `(\d+)`). -/
def digitsToNat (l : List Char) : Nat :=
  l.foldl (fun acc c => acc * 10 + (c.toNat - '0'.toNat)) 0

/-! ## The deterministic categorizer (`determineListingCategory`,
`src/unnamed/part_000` lines 361–403)

`description` is the string the call site passes
(`item.listing_details?.redacted_description?.text || ''`), so a missing
description arrives as `""`; JS `!description` is `description = ""`.
`bedrooms` is `number | undefined`; JS truthiness of `bedrooms` is
`some n` with `n ≠ 0`. -/

/-- JS truthiness of a `number | undefined` variable. -/
def truthyN : Option Nat → Bool
  | none => false
  | some n => n ≠ 0

/-- Embeds `determineListingCategory(description, bedrooms)`. -/
def determineListingCategory (description : String) (bedrooms : Option Nat) : String :=
  if description = "" then "unknown"
  else
    let desc := toLowerL description.toList
    if containsL desc "airbnb".toList ||
       containsL desc "short term".toList ||
       containsL desc "short-term".toList ||
       containsL desc "nightly".toList ||
       containsL desc "per night".toList ||
       containsL desc "vacation rental".toList then "airbnb"
    else if containsL desc "studio".toList then "studio apartment"
    else if containsL desc "room for rent".toList ||
            containsL desc "roommate".toList ||
            containsL desc "shared apartment".toList ||
            containsL desc "shared kitchen".toList ||
            containsL desc "shared bathroom".toList then "bedroom"
    else if containsL desc "shared room".toList ||
            containsL desc "shared bedroom".toList then "bed"
    else if truthyN bedrooms then
      toString (bedrooms.getD 0) ++ "bdr apartment"
    else if containsL desc "1 bedroom".toList || containsL desc "1-bedroom".toList ||
            containsL desc "one bedroom".toList then "1bdr apartment"
    else if containsL desc "2 bedroom".toList || containsL desc "2-bedroom".toList ||
            containsL desc "two bedroom".toList then "2bdr apartment"
    else if containsL desc "3 bedroom".toList || containsL desc "3-bedroom".toList ||
            containsL desc "three bedroom".toList then "3bdr apartment"
    else if containsL desc "4 bedroom".toList || containsL desc "4-bedroom".toList ||
            containsL desc "four bedroom".toList then "4bdr apartment"
    else "unknown"

/-! Spec-side rendering of the categorizer, written from the specification's
rule list (§4.1: vocabularies checked in a fixed priority order, first match
wins), to be compared against the embedding of the source. -/

/-- Short-term-rental vocabulary (spec rule 1). -/
def shortTermVocab : List String :=
  ["airbnb", "short term", "short-term", "nightly", "per night", "vacation rental"]

/-- Shared-unit vocabulary (spec rule 3). -/
def sharedUnitVocab : List String :=
  ["room for rent", "roommate", "shared apartment", "shared kitchen", "shared bathroom"]

/-- Shared-sleeping vocabulary (spec rule 4). -/
def sharedSleepVocab : List String :=
  ["shared room", "shared bedroom"]

/-- Literal bedroom-count phrases (spec rule 6). -/
def bedroomPhraseTable : List (List String × String) :=
  [ (["1 bedroom", "1-bedroom", "one bedroom"], "1bdr apartment"),
    (["2 bedroom", "2-bedroom", "two bedroom"], "2bdr apartment"),
    (["3 bedroom", "3-bedroom", "three bedroom"], "3bdr apartment"),
    (["4 bedroom", "4-bedroom", "four bedroom"], "4bdr apartment") ]

/-- Does the lower-cased description mention any phrase of the vocabulary? -/
def mentionsAny (desc : List Char) (vocab : List String) : Bool :=
  vocab.any (fun p => containsL desc p.toList)

/-- First entry of the phrase table whose vocabulary is mentioned wins;
no entry matching yields `unknown`. -/
def firstPhraseMatch (desc : List Char) : List (List String × String) → String
  | [] => "unknown"
  | e :: rest => if mentionsAny desc e.1 then e.2 else firstPhraseMatch desc rest

/-- The categorizer as the specification words it: lower-case the
description (absent → `unknown`) and check the rule list in priority order,
first match winning. -/
def categorizerSpec (description : String) (bedrooms : Option Nat) : String :=
  if description = "" then "unknown"
  else
    let desc := toLowerL description.toList
    if mentionsAny desc shortTermVocab then "airbnb"
    else if containsL desc "studio".toList then "studio apartment"
    else if mentionsAny desc sharedUnitVocab then "bedroom"
    else if mentionsAny desc sharedSleepVocab then "bed"
    else if truthyN bedrooms then toString (bedrooms.getD 0) ++ "bdr apartment"
    else firstPhraseMatch desc bedroomPhraseTable

/-- C5: the deterministic categorizer checks its rules in exactly the
specified priority order with first match winning, and reproduces the
spec's worked scenarios. -/
theorem determineListingCategory_matches_spec :
    (∀ d b, determineListingCategory d b = categorizerSpec d b) ∧
    determineListingCategory "Cozy studio apartment downtown" none = "studio apartment" ∧
    determineListingCategory "Shared room in house, $500/mo" none = "bed" ∧
    determineListingCategory "Spacious 2 bedroom with parking" (some 2) = "2bdr apartment" ∧
    determineListingCategory "Available for Airbnb, nightly rate" none = "airbnb" ∧
    determineListingCategory "" none = "unknown" := by
  refine ⟨fun d b => ?_, by decide, by decide, by decide, by decide, by decide⟩
  unfold determineListingCategory categorizerSpec
  simp only [firstPhraseMatch, mentionsAny, shortTermVocab, sharedUnitVocab,
    sharedSleepVocab, bedroomPhraseTable, List.any_cons, List.any_nil,
    Bool.or_false, Bool.or_assoc]

/-! ## Monetary extraction (`src/unnamed/part_000` lines 90–99 and 244–249)

`parseFloat` and the `* 100` product are computed by the program in IEEE
binary64.  The embedding is bit-faithful: the decimal literal (or an
`Infinity` literal) is parsed exactly, rounded to the nearest binary64
value (ties to even, with overflow to infinity and underflow through the
subnormal range to zero), the product with `100` is again correctly
rounded, and `Math.round` takes the value closest to the resulting double
that is integral, ties toward `+∞` — which on the exact value `v` of a
double is `⌊v + 1/2⌋`.  A finite double is carried exactly as `±m·2^u`
with integer `m`, `u`, so every step is kernel-computable.  The exact
rational reading of the decimal literal (`DecParsed.toRat`) is kept
separately: it is what the specification's `round(amount * 100)` formula
refers to, and `price_float_rounding_counterexample` shows the program
diverges from it. -/

/-- Split a leading digit run off a character list. -/
def spanDigits (l : List Char) : List Char × List Char :=
  (l.takeWhile Char.isDigit, l.dropWhile Char.isDigit)

/-- The exact decimal value of a successful decimal-literal parse:
`digits / 10^fracLen · 10^exp`, negated when `neg`. -/
structure DecParsed where
  neg : Bool
  digits : Nat
  fracLen : Nat
  exp : Int
  deriving DecidableEq

/-- Decimal mantissa of `parseFloat`: the mantissa digits as an integer,
the number of fractional digits, and the unconsumed remainder. -/
def parseMantissa (l : List Char) : Option (Nat × Nat × List Char) :=
  let (d1, r1) := spanDigits l
  match r1 with
  | '.' :: r2 =>
    let (d2, r3) := spanDigits r2
    if d1.isEmpty && d2.isEmpty then none
    else some (digitsToNat (d1 ++ d2), d2.length, r3)
  | _ => if d1.isEmpty then none else some (digitsToNat d1, 0, r1)

/-- Optional exponent part (`e`/`E`, optional sign, digits); a malformed
exponent contributes a factor of one, as `parseFloat` ignores it. -/
def parseExpVal (l : List Char) : Int :=
  match l with
  | 'e' :: r | 'E' :: r =>
    let (neg, r1) : Bool × List Char :=
      match r with
      | '-' :: cs => (true, cs)
      | '+' :: cs => (false, cs)
      | cs => (false, cs)
    let (ds, _) := spanDigits r1
    if ds.isEmpty then 0
    else if neg then -(digitsToNat ds : Int) else (digitsToNat ds : Int)
  | _ => 0

/-- The exact decimal components a decimal-literal `parseFloat` input
denotes, `none` when no numeric prefix exists (`NaN`).  This is the
claim-side exact reading; the program itself rounds to binary64
(`jsParseFloat64` below). -/
def jsParseNum (s : List Char) : Option DecParsed :=
  let l := s.dropWhile isJsWs
  let (neg, l1) : Bool × List Char :=
    match l with
    | '-' :: cs => (true, cs)
    | '+' :: cs => (false, cs)
    | cs => (false, cs)
  match parseMantissa l1 with
  | none => none
  | some (digits, fracLen, rest) => some ⟨neg, digits, fracLen, parseExpVal rest⟩

/-- The rational value of a parsed decimal. -/
def DecParsed.toRat (p : DecParsed) : ℚ :=
  (if p.neg then -(p.digits : ℚ) else (p.digits : ℚ)) * (10 : ℚ) ^ (p.exp - (p.fracLen : ℤ))

/-- The exact value of the decimal literal `parseFloat` is given, `none`
for `NaN` — the amount the specification's `round(amount * 100)` speaks
about (an `Infinity` literal is not a decimal number). -/
def jsParseFloat (s : List Char) : Option ℚ := (jsParseNum s).map DecParsed.toRat

/-- Exact rounding half toward positive infinity — `Math.round` on the
exact value of its (finite) double argument. -/
def jsRound (q : ℚ) : Int := ⌊q + 1/2⌋

/-! ### Binary64 rounding in integer arithmetic -/

/-- Fuel-based `⌊log₂ n⌋` (`0` for `n ≤ 1`); the fuel `n` itself bounds
the recursion depth `⌊log₂ n⌋`. -/
def ilog2Fuel : Nat → Nat → Nat
  | 0, _ => 0
  | fuel + 1, n => if 2 ≤ n then ilog2Fuel fuel (n / 2) + 1 else 0

/-- `⌊log₂ n⌋` for `n ≥ 1`. -/
def ilog2 (n : Nat) : Nat := ilog2Fuel n n

/-- `2^e ≤ num/den` for positive `num`, `den` and a signed exponent. -/
def pow2LE (e : Int) (num den : Nat) : Bool :=
  if 0 ≤ e then den * 2 ^ e.toNat ≤ num else den ≤ num * 2 ^ (-e).toNat

/-- `⌊log₂ (num/den)⌋` for `num, den ≥ 1`: since
`2^(L num − L den − 1) ≤ num/den < 2^(L num − L den + 1)` with
`L = ⌊log₂ ·⌋`, the answer lies in `{e₀ − 1, e₀}` around
`e₀ = L num − L den`, found by direct comparison. -/
def floorLog2 (num den : Nat) : Int :=
  let e0 : Int := (ilog2 num : Int) - (ilog2 den : Int)
  if pow2LE (e0 + 1) num den then e0 + 1
  else if pow2LE e0 num den then e0
  else e0 - 1

/-- Round `num/den` (with `den ≥ 1`) to the nearest integer, ties to
even. -/
def rndNE (num den : Nat) : Nat :=
  let q := num / den
  let r2 := 2 * (num % den)
  if den < r2 then q + 1
  else if r2 < den then q
  else if q % 2 = 0 then q else q + 1

/-- A JS number that the price pipeline can produce: a finite binary64
value `±m·2^u`, or an infinity (`NaN` is handled before this type is
reached, by the `isNaN` guard / parse failure). -/
inductive B64 where
  | fin (neg : Bool) (m : Nat) (u : Int)
  | inf (neg : Bool)
  deriving DecidableEq

/-- Round the positive rational `num/den` (sign carried separately) to
the nearest binary64: determine the binade, round the scaled mantissa
ties-to-even at the ulp `2^(max e (−1022) − 52)` (which also covers the
subnormal range and underflow to zero), and overflow to infinity at
`2^1024` — the IEEE-754 round-to-nearest-even rule. -/
def roundB64 (neg : Bool) (num den : Nat) : B64 :=
  if num = 0 then B64.fin neg 0 0
  else
    let e := floorLog2 num den
    let u : Int := max e (-1022) - 52
    let m := if 0 ≤ u then rndNE num (den * 2 ^ u.toNat)
             else rndNE (num * 2 ^ (-u).toNat) den
    if 0 ≤ u ∧ 2 ^ 1024 ≤ m * 2 ^ u.toNat then B64.inf neg
    else B64.fin neg m u

/-- Embeds JS `parseFloat`: leading whitespace, optional sign, then
either an `Infinity` literal or a decimal mantissa with optional
exponent, rounded to binary64; trailing garbage is ignored; no parsable
prefix yields `none` (`NaN`). -/
def jsParseFloat64 (s : List Char) : Option B64 :=
  let l := s.dropWhile isJsWs
  let (neg, l1) : Bool × List Char :=
    match l with
    | '-' :: cs => (true, cs)
    | '+' :: cs => (false, cs)
    | cs => (false, cs)
  if startsWithL l1 "Infinity".toList then some (B64.inf neg)
  else
    match parseMantissa l1 with
    | none => none
    | some (digits, fracLen, rest) =>
      let scale : Int := parseExpVal rest - fracLen
      if 0 ≤ scale then some (roundB64 neg (digits * 10 ^ scale.toNat) 1)
      else some (roundB64 neg digits (10 ^ (-scale).toNat))

/-- The binary64 product `x ⊗ 100`: the exact product, correctly
rounded. -/
def b64Mul100 : B64 → B64
  | B64.inf neg => B64.inf neg
  | B64.fin neg m u =>
    if m = 0 then B64.fin neg 0 0
    else if 0 ≤ u then roundB64 neg (m * 100 * 2 ^ u.toNat) 1
    else roundB64 neg (m * 100) (2 ^ (-u).toNat)

/-- The value `priceInCents` holds after lines 91–99: a finite integer
number of cents, or an infinity. -/
inductive JsCents where
  | val (n : Int)
  | inf (neg : Bool)
  deriving DecidableEq

/-- `Math.round` on a JS number: on the exact value `±m·2^u` of a finite
double, the closest integral value with ties toward `+∞`, i.e.
`⌊v + 1/2⌋ = (2·n + d) / (2·d)` for `v = n/d`; infinities pass through. -/
def jsRoundB64 : B64 → JsCents
  | B64.inf neg => JsCents.inf neg
  | B64.fin neg m u =>
    let n : Int := if neg then -(m : Int) else (m : Int)
    if 0 ≤ u then JsCents.val (n * 2 ^ u.toNat)
    else JsCents.val ((2 * n + 2 ^ (-u).toNat) / (2 * 2 ^ (-u).toNat))

/-- Lines 91–99 of the import script: the price in cents — `0` when the
amount field is missing (`""`, JS-falsy) or fails to parse (`isNaN`),
otherwise `Math.round(parseFloat(amount) * 100)` in binary64. -/
def extractPriceCents (amount : String) : JsCents :=
  if amount = "" then JsCents.val 0
  else
    match jsParseFloat64 amount.toList with
    | some f => jsRoundB64 (b64Mul100 f)
    | none => JsCents.val 0

/-- Two-digit zero-padded rendering of a value below 100. -/
def pad2 (n : Nat) : String :=
  (if n < 10 then "0" else "") ++ toString n

/-- `(c / 100).toFixed(2)` for an integer cents value `c` — the canonical
two-decimal display string, which is what `toFixed(2)` produces for every
in-range integer cents value (`|c| < 2^51`, where the relative error of
the `c / 100` division cannot move the rounded second decimal). -/
def centsToFixed2 (c : Int) : String :=
  (if c < 0 then "-" else "") ++ toString (c.natAbs / 100) ++ "." ++ pad2 (c.natAbs % 100)

/-- Line 248: `(priceInCents / 100).toFixed(2)`; `toFixed` renders a
non-finite number as `Infinity`/`-Infinity`. -/
def jsCentsToFixed2 : JsCents → String
  | JsCents.val n => centsToFixed2 n
  | JsCents.inf neg => if neg then "-Infinity" else "Infinity"

/-- Price extraction as the amended claim words it: `Math.round` of the
binary64 product `parseFloat(amount) ⊗ 100` whenever the amount parses,
and `0` when it is missing or fails to parse. -/
def priceCentsB64Spec (amount : String) : JsCents :=
  match jsParseFloat64 amount.toList with
  | some f => jsRoundB64 (b64Mul100 f)
  | none => JsCents.val 0

/-- C6 (amended): for every raw amount the extracted cents value is
`Math.round` of the binary64 product `parseFloat(amount) × 100` — `0`
when the field is missing or unparsable, an infinity for an `Infinity`
amount, and the extraction is a total function that never raises; the
monetary round-trip holds: `"1234.5"` parses exactly to `2469/2`, the
program yields `123450` cents, the exact `round(amount·100)` agrees
there, and the two-decimal display of `123450` cents is `"1234.50"`. -/
theorem priceCents_round_and_total :
    (∀ amount : String, extractPriceCents amount = priceCentsB64Spec amount) ∧
    extractPriceCents "1234.5" = JsCents.val 123450 ∧
    jsParseFloat "1234.5".toList = some ((2469 : ℚ) / 2) ∧
    jsRound ((2469 : ℚ) / 2 * 100) = 123450 ∧
    extractPriceCents "Infinity" = JsCents.inf false ∧
    centsToFixed2 123450 = "1234.50" := by
  refine ⟨fun amount => ?_, by decide, ?_, ?_, by decide, by decide⟩
  · by_cases h : amount = ""
    · subst h
      have hnone : jsParseFloat64 ([] : List Char) = none := by decide
      simp [extractPriceCents, priceCentsB64Spec, hnone]
    · simp [extractPriceCents, priceCentsB64Spec, h]
  · have hp : jsParseNum "1234.5".toList = some ⟨false, 12345, 1, 0⟩ := by decide
    simp only [jsParseFloat, hp, Option.map_some]
    unfold DecParsed.toRat
    norm_num
  · simp only [jsRound]
    rw [show (2469 : ℚ) / 2 * 100 + 1 / 2 = ((246901 : ℤ) : ℚ) / ((2 : ℕ) : ℚ) by push_cast; ring,
      Rat.floor_intCast_div_natCast]
    decide

/-- C6 counterexample: the amount `"1.005"` parses as the decimal number
`201/200`, whose exact `round(amount·100)` is `101`; the program,
computing in binary64 (`1.005 * 100 === 100.49999999999999`), yields
`100` cents — the claim's universal equation fails on the code. -/
theorem price_float_rounding_counterexample :
    extractPriceCents "1.005" = JsCents.val 100 ∧
    jsParseFloat "1.005".toList = some ((201 : ℚ) / 200) ∧
    jsRound ((201 : ℚ) / 200 * 100) = 101 := by
  refine ⟨by decide, ?_, ?_⟩
  · have hp : jsParseNum "1.005".toList = some ⟨false, 1005, 3, 0⟩ := by decide
    simp only [jsParseFloat, hp, Option.map_some]
    unfold DecParsed.toRat
    norm_num
  · simp only [jsRound]
    rw [show (201 : ℚ) / 200 * 100 + 1 / 2 = ((101 : ℤ) : ℚ) by push_cast; ring]
    exact Int.floor_intCast 101

/-! ## Regex helpers for `/(\d+)\s*<kw>/i`

The import script extracts room counts with regexes of the shape
`/(\d+)\s*bedroom/i`: a digit run, optional whitespace, then a keyword,
case-insensitively, leftmost match first.  Greedy matching with
backtracking coincides with maximal digit/whitespace runs here because the
keywords start with a letter, which is neither a digit nor whitespace. -/

/-- Case-insensitive `startsWith`. -/
def startsWithCI : List Char → List Char → Bool
  | _, [] => true
  | [], _ :: _ => false
  | a :: as, b :: bs => a.toLower = b.toLower && startsWithCI as bs

/-- Try `/(\d+)\s*<kw>/i` anchored at the head of the list; the parsed
capture on success. -/
def matchNumAt (kw : List Char) (l : List Char) : Option Nat :=
  let ds := l.takeWhile Char.isDigit
  if ds.isEmpty then none
  else
    let rest := (l.drop ds.length).dropWhile isJsWs
    if startsWithCI rest kw then some (digitsToNat ds) else none

/-- Leftmost match of `/(\d+)\s*<kw>/i` in the list (`String.match`). -/
def findNumBefore (kw : List Char) : List Char → Option Nat
  | [] => none
  | c :: cs =>
    match matchNumAt kw (c :: cs) with
    | some n => some n
    | none => findNumBefore kw cs

/-! ## The raw source document

`RawItem` carries exactly the nested fields of the scraped JSON document
that the import script reads, flattened along the optional-chaining paths
the code uses.  A missing or JS-falsy string field is `""`; a missing
array/object is `none`; a missing or zero number is handled at each use
site exactly as the code's truthiness checks do. -/

/-- One entry of `listing_details.pdp_display_sections`: its `pdp_fields`
array of `display_label` strings (a missing label is `""`). -/
structure PdpSection where
  pdp_fields : Option (List String) := none
  deriving DecidableEq

/-- The raw scraped listing document (the fields the import script reads). -/
structure RawItem where
  /-- `item.id` -/
  id : String := ""
  /-- `item.listing_price?.amount` -/
  listing_price_amount : String := ""
  /-- `item.location?.reverse_geocode?.city` -/
  loc_city : String := ""
  /-- `item.listing_details?.location?.reverse_geocode_detailed?.city` -/
  det_city : String := ""
  /-- `item.location?.reverse_geocode?.state` -/
  loc_state : String := ""
  /-- `item.listing_details?.location?.reverse_geocode_detailed?.state` -/
  det_state : String := ""
  /-- `item.listing_details?.location?.reverse_geocode_detailed?.postal_code` -/
  det_postal : String := ""
  /-- `item.listing_details?.home_address?.street` -/
  home_street : String := ""
  /-- `item.custom_sub_titles_with_rendering_flags`, each entry's
  `.subtitle` string. -/
  subtitles : Option (List String) := none
  /-- `item.listing_details?.location?.latitude` -/
  latitude : Option ℚ := none
  /-- `item.listing_details?.location?.longitude` -/
  longitude : Option ℚ := none
  /-- `item.listing_title?.text` -/
  listing_title_text : String := ""
  /-- `item.description` (top-level raw field, distinct from the redacted
  description) -/
  raw_description : String := ""
  /-- `item.bedrooms` -/
  raw_bedrooms : Option Nat := none
  /-- `item.bathrooms` -/
  raw_bathrooms : Option Nat := none
  /-- `item.listing_details?.unit_room_info` -/
  unit_room_info : String := ""
  /-- `item.listing_details?.pdp_display_sections` -/
  pdp_sections : Option (List PdpSection) := none
  /-- `item.primary_listing_photo?.image?.uri` -/
  primary_photo_uri : String := ""
  /-- `item.listing_details?.listing_photos`, each entry's `.image?.uri` -/
  photo_uris : List String := []
  /-- `item.marketplace_listing_title` -/
  marketplace_listing_title : String := ""
  /-- `item.custom_title` -/
  custom_title : String := ""
  /-- `item.creation_time` -/
  creation_time : String := ""
  /-- `item.listing_details?.redacted_description?.text` -/
  redacted_text : String := ""
  deriving DecidableEq

/-! ## Bedroom/bathroom extraction (`src/unnamed/part_000` lines 130–142,
315–333, 338–356) -/

/-- `extractBedroomCount(item)`: `/(\d+)\s*bedroom/i` against
`listing_title.text` (guarded by a case-sensitive `includes('bedroom')`),
then against the raw `description`, then the structured `item.bedrooms`
(`|| undefined`, so `0` becomes absent). -/
def extractBedroomCount (it : RawItem) : Option Nat :=
  let fromTitle :=
    if containsS it.listing_title_text "bedroom" then
      findNumBefore "bedroom".toList it.listing_title_text.toList
    else none
  match fromTitle with
  | some n => some n
  | none =>
    let fromDesc :=
      if containsS it.raw_description "bedroom" then
        findNumBefore "bedroom".toList it.raw_description.toList
      else none
    match fromDesc with
    | some n => some n
    | none =>
      match it.raw_bedrooms with
      | some 0 => none
      | x => x

/-- `extractBathroomCount(item)`: identical strategy with `bathroom`. -/
def extractBathroomCount (it : RawItem) : Option Nat :=
  let fromTitle :=
    if containsS it.listing_title_text "bathroom" then
      findNumBefore "bathroom".toList it.listing_title_text.toList
    else none
  match fromTitle with
  | some n => some n
  | none =>
    let fromDesc :=
      if containsS it.raw_description "bathroom" then
        findNumBefore "bathroom".toList it.raw_description.toList
      else none
    match fromDesc with
    | some n => some n
    | none =>
      match it.raw_bathrooms with
      | some 0 => none
      | x => x

/-- Lines 130–142: after the two extractors, the `unit_room_info` string is
consulted with `/(\d+)\s*bed/i` and `/(\d+)\s*bath/i` only when it is
truthy AND `!bedrooms && !bathrooms`, i.e. only when both counts are still
JS-falsy. -/
def resolveRooms (it : RawItem) : Option Nat × Option Nat :=
  let b := extractBedroomCount it
  let ba := extractBathroomCount it
  if it.unit_room_info ≠ "" ∧ truthyN b = false ∧ truthyN ba = false then
    let bm := findNumBefore "bed".toList it.unit_room_info.toList
    let bam := findNumBefore "bath".toList it.unit_room_info.toList
    ((match bm with | some n => some n | none => b),
     (match bam with | some n => some n | none => ba))
  else (b, ba)

/-! ## Street address (`src/unnamed/part_000` lines 112–124) -/

/-- The subtitle scan: the first subtitle that is truthy (non-empty) and
contains neither the resolved city nor the resolved state. -/
def firstSubtitleStreet : List String → String → String → String
  | [], _, _ => ""
  | s :: rest, city, state =>
    if (s != "") && !containsS s city && !containsS s state then s
    else firstSubtitleStreet rest city state

/-- Lines 112–124: structured `home_address.street` first; otherwise scan
the subtitle list when it exists; otherwise `""`. -/
def extractStreet (it : RawItem) (city state : String) : String :=
  if it.home_street ≠ "" then it.home_street
  else
    match it.subtitles with
    | none => ""
    | some subs => firstSubtitleStreet subs city state

/-! ## C7: room-count resolution order -/

/-- One textual resolution step of the spec's ordered strategy list:
regex `"<N> <kw>"` against a text field, guarded by the code's
case-sensitive `includes` check. -/
def roomFromText (kw text : String) : Option Nat :=
  if containsS text kw then findNumBefore kw.toList text.toList else none

/-- The structured-field fallback (`item.bedrooms || undefined`). -/
def structuredRoom : Option Nat → Option Nat
  | some 0 => none
  | x => x

/-- The last-resort `unit_room_info` regex, falling back to the previous
value when it does not match. -/
def roomInfoFallback (kw : String) (info : String) (prev : Option Nat) : Option Nat :=
  match findNumBefore kw.toList info.toList with
  | some n => some n
  | none => prev

/-- C7 (amended): each room count is resolved by trying, in order, the
structured title field, the description field, then the pre-structured
numeric field, first success winning; the `unit_room_info` last resort is
applied ONLY when BOTH counts are still undetermined — when only one count
is missing the fallback is skipped entirely, so the two counts are not
resolved independently at that final step. -/
theorem roomCounts_priority_and_gated_fallback :
    (∀ it : RawItem, extractBedroomCount it =
      ((roomFromText "bedroom" it.listing_title_text).orElse fun _ =>
        ((roomFromText "bedroom" it.raw_description).orElse fun _ =>
          structuredRoom it.raw_bedrooms))) ∧
    (∀ it : RawItem, extractBathroomCount it =
      ((roomFromText "bathroom" it.listing_title_text).orElse fun _ =>
        ((roomFromText "bathroom" it.raw_description).orElse fun _ =>
          structuredRoom it.raw_bathrooms))) ∧
    (∀ it : RawItem,
      truthyN (extractBedroomCount it) = true ∨
      truthyN (extractBathroomCount it) = true ∨ it.unit_room_info = "" →
      resolveRooms it = (extractBedroomCount it, extractBathroomCount it)) ∧
    (∀ it : RawItem, it.unit_room_info ≠ "" →
      truthyN (extractBedroomCount it) = false →
      truthyN (extractBathroomCount it) = false →
      resolveRooms it =
        (roomInfoFallback "bed" it.unit_room_info (extractBedroomCount it),
         roomInfoFallback "bath" it.unit_room_info (extractBathroomCount it))) := by
  refine ⟨fun it => ?_, fun it => ?_, fun it h => ?_, fun it h1 h2 h3 => ?_⟩
  · simp only [extractBedroomCount, roomFromText, structuredRoom]
    cases hT : (if containsS it.listing_title_text "bedroom" then
        findNumBefore "bedroom".toList it.listing_title_text.toList else none) with
    | some n => simp [hT]
    | none =>
      simp only [hT, Option.none_orElse]
      cases hD : (if containsS it.raw_description "bedroom" then
          findNumBefore "bedroom".toList it.raw_description.toList else none) <;>
        simp [hD]
  · simp only [extractBathroomCount, roomFromText, structuredRoom]
    cases hT : (if containsS it.listing_title_text "bathroom" then
        findNumBefore "bathroom".toList it.listing_title_text.toList else none) with
    | some n => simp [hT]
    | none =>
      simp only [hT, Option.none_orElse]
      cases hD : (if containsS it.raw_description "bathroom" then
          findNumBefore "bathroom".toList it.raw_description.toList else none) <;>
        simp [hD]
  · simp only [resolveRooms]
    rw [if_neg]
    rintro ⟨hi, hb, hba⟩
    rcases h with h | h | h
    · rw [h] at hb; cases hb
    · rw [h] at hba; cases hba
    · exact hi h
  · simp only [resolveRooms, roomInfoFallback]
    rw [if_pos ⟨h1, h2, h3⟩]

/-- C7 witness: the gated-fallback characterization applied at concrete
inputs. -/
theorem roomCounts_priority_and_gated_fallback_witness :
    resolveRooms { listing_title_text := "2 bedroom apt" } =
      (extractBedroomCount { listing_title_text := "2 bedroom apt" },
       extractBathroomCount { listing_title_text := "2 bedroom apt" }) ∧
    resolveRooms { unit_room_info := "3 bed 2 bath" } =
      (roomInfoFallback "bed" "3 bed 2 bath"
        (extractBedroomCount { unit_room_info := "3 bed 2 bath" }),
       roomInfoFallback "bath" "3 bed 2 bath"
        (extractBathroomCount { unit_room_info := "3 bed 2 bath" })) :=
  ⟨roomCounts_priority_and_gated_fallback.2.2.1 _ (Or.inl (by decide)),
   roomCounts_priority_and_gated_fallback.2.2.2 _ (by decide) (by decide) (by decide)⟩

/-- C7 counterexample: with a bedroom count found in the title and a
`unit_room_info` of `"2 bed 1 bath"`, the bathroom count stays unresolved
even though the last-resort `"<N> bath"` regex would match — the two
counts are not resolved independently, refuting the claim as stated. -/
theorem roomCounts_not_independent_counterexample :
    resolveRooms { listing_title_text := "2 bedroom apt",
                   unit_room_info := "2 bed 1 bath" } = (some 2, none) ∧
    findNumBefore "bath".toList "2 bed 1 bath".toList = some 1 := by decide

/-! ## C9: street address from subtitles -/

/-- The street-address subtitle rule exactly as the specification words
it: the first subtitle that does not contain the city substring and does
not contain the state substring (no non-emptiness requirement). -/
def streetClaimed (subs : List String) (city state : String) : String :=
  (subs.filter fun s => !containsS s city && !containsS s state).headD ""

/-- The street-address subtitle rule as amended: the first NON-EMPTY
subtitle that contains neither the city nor the state substring. -/
def streetAmended (subs : List String) (city state : String) : String :=
  (subs.filter fun s => (s != "") && !containsS s city && !containsS s state).headD ""

/-- Everything contains the empty substring (`hay.includes('') === true`). -/
theorem containsL_nil (l : List Char) : containsL l [] = true := by
  cases l <;> rfl

/-- Every string contains the empty string as a substring. -/
theorem containsS_empty (s : String) : containsS s "" = true := by
  have h : "".toList = ([] : List Char) := rfl
  rw [containsS, h]
  exact containsL_nil _

/-- The recursive subtitle scan computes the first qualifying non-empty
subtitle. -/
theorem firstSubtitleStreet_eq (subs : List String) (city state : String) :
    firstSubtitleStreet subs city state = streetAmended subs city state := by
  induction subs with
  | nil => rfl
  | cons s rest ih =>
    simp only [firstSubtitleStreet, streetAmended, List.filter_cons]
    cases hc : (s != "") && !containsS s city && !containsS s state with
    | true => simp [hc]
    | false => simpa [hc, streetAmended] using ih

/-- C9 (amended): with no structured street field, the street address is
the first NON-EMPTY subtitle containing neither the resolved city nor the
resolved state; when none qualifies — in particular whenever the resolved
city or state is the empty string, which every subtitle contains — it is
left empty. -/
theorem street_first_nonempty_unrelated_subtitle :
    (∀ (it : RawItem) (city state : String), it.home_street = "" →
      extractStreet it city state =
        match it.subtitles with
        | none => ""
        | some subs => streetAmended subs city state) ∧
    (∀ (subs : List String) (state : String), firstSubtitleStreet subs "" state = "") ∧
    (∀ (subs : List String) (city : String), firstSubtitleStreet subs city "" = "") := by
  refine ⟨fun it city state h => ?_, fun subs state => ?_, fun subs city => ?_⟩
  · simp only [extractStreet, h]
    cases it.subtitles with
    | none => rfl
    | some subs => simpa using firstSubtitleStreet_eq subs city state
  · induction subs with
    | nil => rfl
    | cons s rest ih => simp [firstSubtitleStreet, containsS_empty, ih]
  · induction subs with
    | nil => rfl
    | cons s rest ih => simp [firstSubtitleStreet, containsS_empty, ih]

/-- C9 witness: the amended street rule applied at a concrete document. -/
theorem street_first_nonempty_unrelated_subtitle_witness :
    extractStreet { subtitles := some ["Halifax, NS", "10 Elm St"] } "Halifax" "NS" =
      streetAmended ["Halifax, NS", "10 Elm St"] "Halifax" "NS" :=
  street_first_nonempty_unrelated_subtitle.1
    { subtitles := some ["Halifax, NS", "10 Elm St"] } "Halifax" "NS" rfl

/-- C9 counterexample: with subtitles `["", "123 Main St"]` and resolved
city/state `"Halifax"`/`"NS"`, the code skips the empty subtitle and
returns `"123 Main St"`, while the claim's rule (first subtitle containing
neither substring, with no non-emptiness requirement) selects `""`. -/
theorem street_skips_empty_subtitle_counterexample :
    extractStreet { subtitles := some ["", "123 Main St"] } "Halifax" "NS" = "123 Main St" ∧
    streetClaimed ["", "123 Main St"] "Halifax" "NS" = "" := by decide

/-! ## Remaining field extraction (`src/unnamed/part_000` lines 144–231) -/

/-- Lines 145–171: pet-friendliness — any display label mentioning
`pet`/`dog`/`cat` (case-insensitive), else any of five fixed phrases in
the redacted description; absence of evidence is `false`. -/
def extractPetFriendly (it : RawItem) : Bool :=
  let fromFields :=
    match it.pdp_sections with
    | none => false
    | some secs =>
      secs.any fun sec =>
        (sec.pdp_fields.getD []).any fun lbl =>
          lbl ≠ "" &&
            (containsL (toLowerL lbl.toList) "pet".toList ||
             containsL (toLowerL lbl.toList) "dog".toList ||
             containsL (toLowerL lbl.toList) "cat".toList)
  if fromFields then true
  else if it.redacted_text ≠ "" then
    let d := toLowerL it.redacted_text.toList
    containsL d "pet friendly".toList || containsL d "pets allowed".toList ||
    containsL d "pet-friendly".toList || containsL d "dogs allowed".toList ||
    containsL d "cats allowed".toList
  else false

/-- An extracted availability date: either a parsed `YYYY/MM/DD` literal or
the import-time current date (`new Date()`), kept symbolic. -/
inductive AvailDate where
  | onDate (ymd : String)
  | now
  deriving DecidableEq

/-- Exactly `n` digits at the head of the list; the digits and remainder. -/
def takeDigits (l : List Char) (n : Nat) : Option (List Char × List Char) :=
  let ds := l.take n
  if ds.length = n && ds.all Char.isDigit then some (ds, l.drop n) else none

/-- `/Available\s+(\d{4}\/\d{2}\/\d{2})/i` anchored at the head: the
captured date string on success. -/
def availDateAt (l : List Char) : Option (List Char) :=
  if startsWithCI l "available".toList then
    let r := l.drop 9
    let ws := r.takeWhile isJsWs
    if ws.isEmpty then none
    else
      match takeDigits (r.drop ws.length) 4 with
      | none => none
      | some (d1, r3) =>
        match r3 with
        | '/' :: r4 =>
          match takeDigits r4 2 with
          | none => none
          | some (d2, r5) =>
            match r5 with
            | '/' :: r6 =>
              match takeDigits r6 2 with
              | none => none
              | some (d3, _) => some (d1 ++ '/' :: d2 ++ '/' :: d3)
            | _ => none
        | _ => none
  else none

/-- Leftmost match of the availability-date regex. -/
def findAvailDate : List Char → Option (List Char)
  | [] => none
  | c :: cs =>
    match availDateAt (c :: cs) with
    | some d => some d
    | none => findAvailDate cs

/-- The inner field loop of lines 176–190 for one section: `none` when no
label contains `Available` (no assignment, inner loop runs dry); on the
first label containing `Available`, `some (some d)` when an assignment is
made and `some none` when not (the loop still breaks). -/
def sectionAvail (sec : PdpSection) : Option (Option AvailDate) :=
  match (sec.pdp_fields.getD []).find? (fun lbl => lbl ≠ "" && containsS lbl "Available") with
  | none => none
  | some lbl =>
    match findAvailDate lbl.toList with
    | some d => some (some (AvailDate.onDate (String.mk d)))
    | none =>
      if containsL (toLowerL lbl.toList) "now".toList then some (some AvailDate.now)
      else some none

/-- Lines 173–191: the section loop; a later section's `Available` field
overwrites an earlier assignment because only the inner loop breaks. -/
def extractAvailableDate (it : RawItem) : Option AvailDate :=
  match it.pdp_sections with
  | none => none
  | some secs =>
    secs.foldl
      (fun acc sec =>
        match sectionAvail sec with
        | none => acc
        | some none => acc
        | some (some d) => some d)
      none

/-- Lines 193–208: every truthy display label not containing `bed`,
`bath` or `Available` (case-sensitive `includes`), in encounter order. -/
def extractAmenities (it : RawItem) : List String :=
  match it.pdp_sections with
  | none => []
  | some secs =>
    secs.foldl
      (fun acc sec =>
        acc ++ (sec.pdp_fields.getD []).filter fun lbl =>
          (lbl != "") && !containsS lbl "bed" && !containsS lbl "bath" &&
            !containsS lbl "Available")
      []

/-- `latitude || null` / `longitude || null`: a numeric `0` is falsy. -/
def jsNumOrNull (q : Option ℚ) : Option ℚ :=
  match q with
  | some x => if x = 0 then none else some x
  | none => none

/-- The extracted candidate record: the local bindings of the import loop
just before the database record is assembled (lines 90–231). -/
structure Extracted where
  id : String := ""
  priceInCents : JsCents := JsCents.val 0
  listingTitle : String := ""
  city : String := ""
  state : String := ""
  postalCode : String := ""
  streetAddress : String := ""
  description : String := ""
  latitude : Option ℚ := none
  longitude : Option ℚ := none
  bedrooms : Option Nat := none
  bathrooms : Option Nat := none
  amenities : List String := []
  petFriendly : Bool := false
  availableDate : Option AvailDate := none
  imageUrl : String := ""
  creationTime : String := ""
  deriving DecidableEq

/-- Lines 90–231 of the import loop: full field extraction for one raw
document. -/
def extract (it : RawItem) : Extracted :=
  let city := if it.loc_city ≠ "" then it.loc_city
              else if it.det_city ≠ "" then it.det_city else ""
  let state := if it.loc_state ≠ "" then it.loc_state
               else if it.det_state ≠ "" then it.det_state else ""
  let rooms := resolveRooms it
  { id := it.id
    priceInCents := extractPriceCents it.listing_price_amount
    listingTitle := if it.marketplace_listing_title ≠ "" then it.marketplace_listing_title
                    else if it.custom_title ≠ "" then it.custom_title else ""
    city := city
    state := state
    postalCode := it.det_postal
    streetAddress := extractStreet it city state
    description := it.redacted_text
    latitude := jsNumOrNull it.latitude
    longitude := jsNumOrNull it.longitude
    bedrooms := rooms.1
    bathrooms := rooms.2
    amenities := extractAmenities it
    petFriendly := extractPetFriendly it
    availableDate := extractAvailableDate it
    imageUrl := if it.primary_photo_uri ≠ "" then it.primary_photo_uri
                else it.photo_uris.headD ""
    creationTime := it.creation_time }

/-! ## The database record and the reconciliation step
(`src/unnamed/part_000` lines 233–296, schema in `src/unnamed/part_001`)

`DbData` is the `dbData` object of lines 244–269: a field that the code
does not add to the object is `none`, so a Prisma `update` leaves the
stored column untouched.  `price` and `ai_category_v1` are always set.
The Prisma `Decimal` column round-trip is modelled as the identity on the
stored canonical two-decimal string, so `existingListing.price.toString()`
is the stored string and `parseFloat(dbData.price).toFixed(2)` is
`dbData.price` itself (exact for in-range two-decimal strings). -/

/-- The sparse `dbData` update/create payload (lines 244–269). -/
structure DbData where
  id : String
  price : String
  listingTitle : Option String := none
  city : Option String := none
  state : Option String := none
  postalCode : Option String := none
  streetAddress : Option String := none
  description : Option String := none
  latitude : Option ℚ := none
  longitude : Option ℚ := none
  bedrooms : Option Nat := none
  bathrooms : Option Nat := none
  amenities : Option (List String) := none
  petFriendly : Option Bool := none
  availableDate : Option AvailDate := none
  imageUrl : Option String := none
  listedDate : Option String := none
  ai_category_v1 : String
  deriving DecidableEq

/-- Lines 244–269: assemble the payload; optional fields only when truthy. -/
def mkDbData (e : Extracted) : DbData :=
  { id := e.id
    price := jsCentsToFixed2 e.priceInCents
    listingTitle := if e.listingTitle ≠ "" then some e.listingTitle else none
    city := if e.city ≠ "" then some e.city else none
    state := if e.state ≠ "" then some e.state else none
    postalCode := if e.postalCode ≠ "" then some e.postalCode else none
    streetAddress := if e.streetAddress ≠ "" then some e.streetAddress else none
    description := if e.description ≠ "" then some e.description else none
    latitude := e.latitude
    longitude := e.longitude
    bedrooms := match e.bedrooms with
                | some n => if n = 0 then none else some n
                | none => none
    bathrooms := match e.bathrooms with
                 | some n => if n = 0 then none else some n
                 | none => none
    amenities := if e.amenities.length > 0 then some e.amenities else none
    petFriendly := some e.petFriendly
    availableDate := e.availableDate
    imageUrl := if e.imageUrl ≠ "" then some e.imageUrl else none
    listedDate := if e.creationTime ≠ "" then some e.creationTime else none
    ai_category_v1 := determineListingCategory e.description e.bedrooms }

/-- A row of the Prisma `Listing` table (`src/unnamed/part_001`). -/
structure ListingRec where
  id : String
  price : String
  listingTitle : Option String := none
  city : Option String := none
  state : Option String := none
  postalCode : Option String := none
  streetAddress : Option String := none
  description : Option String := none
  latitude : Option ℚ := none
  longitude : Option ℚ := none
  bedrooms : Option Nat := none
  bathrooms : Option Nat := none
  amenities : List String := []
  petFriendly : Option Bool := some false
  availableDate : Option AvailDate := none
  imageUrl : Option String := none
  listedDate : Option String := none
  ai_category_v1 : Option String := none
  deriving DecidableEq

/-- Prisma `update`: columns named in the payload are overwritten, the
rest keep their stored values. -/
def applyUpdate (r : ListingRec) (d : DbData) : ListingRec :=
  { id := d.id
    price := d.price
    listingTitle := match d.listingTitle with | some v => some v | none => r.listingTitle
    city := match d.city with | some v => some v | none => r.city
    state := match d.state with | some v => some v | none => r.state
    postalCode := match d.postalCode with | some v => some v | none => r.postalCode
    streetAddress := match d.streetAddress with | some v => some v | none => r.streetAddress
    description := match d.description with | some v => some v | none => r.description
    latitude := match d.latitude with | some v => some v | none => r.latitude
    longitude := match d.longitude with | some v => some v | none => r.longitude
    bedrooms := match d.bedrooms with | some v => some v | none => r.bedrooms
    bathrooms := match d.bathrooms with | some v => some v | none => r.bathrooms
    amenities := match d.amenities with | some a => a | none => r.amenities
    petFriendly := match d.petFriendly with | some b => some b | none => r.petFriendly
    availableDate := match d.availableDate with | some v => some v | none => r.availableDate
    imageUrl := match d.imageUrl with | some v => some v | none => r.imageUrl
    listedDate := match d.listedDate with | some v => some v | none => r.listedDate
    ai_category_v1 := some d.ai_category_v1 }

/-- Prisma `create`: payload columns, schema defaults for the rest
(`petFriendly` defaults to `false`; the `now()` timestamp columns are not
modelled). -/
def mkListing (d : DbData) : ListingRec :=
  { id := d.id
    price := d.price
    listingTitle := d.listingTitle
    city := d.city
    state := d.state
    postalCode := d.postalCode
    streetAddress := d.streetAddress
    description := d.description
    latitude := d.latitude
    longitude := d.longitude
    bedrooms := d.bedrooms
    bathrooms := d.bathrooms
    amenities := d.amenities.getD []
    petFriendly := match d.petFriendly with | some b => some b | none => some false
    availableDate := d.availableDate
    imageUrl := d.imageUrl
    listedDate := d.listedDate
    ai_category_v1 := some d.ai_category_v1 }

/-- The persisted table, keyed by listing id. -/
abbrev Store := List ListingRec

/-- `prisma.listing.findUnique({ where: { id } })`. -/
def findListing (store : Store) (id : String) : Option ListingRec :=
  List.find? (fun r => r.id = id) store

/-- The persistence-gateway calls a single loop iteration can make.
`appendPriceHistory` is the `PriceHistory` insert the schema provides
(`src/unnamed/part_001` lines 44–53); `logPriceChange` is the
`console.log` of lines 280–282. -/
inductive Op where
  | findUnique (id : String)
  | create (d : DbData)
  | update (id : String) (d : DbData)
  | logPriceChange (id oldPrice newPrice : String)
  | appendPriceHistory (listingId price : String)
  deriving DecidableEq

/-- The per-run counters (lines 70–76). -/
structure Stats where
  newListings : Nat := 0
  updatedListings : Nat := 0
  skippedListings : Nat := 0
  totalProcessed : Nat := 0
  errors : Nat := 0
  deriving DecidableEq

/-- One iteration of the import loop (lines 86–296): extract, skip when
the id is falsy, otherwise look up, compare prices, and create or update.
Returns the resulting table, the statistics delta, and the persistence
operations performed, in order. -/
def processItem (store : Store) (it : RawItem) : Store × Stats × List Op :=
  let e := extract it
  if e.id = "" then
    (store, { skippedListings := 1, totalProcessed := 1 }, [])
  else
    let d := mkDbData e
    match findListing store e.id with
    | some l =>
      let logOps : List Op :=
        if l.price ≠ d.price then [Op.logPriceChange e.id l.price d.price] else []
      (List.map (fun r => if r.id = e.id then applyUpdate r d else r) store,
       { updatedListings := 1, totalProcessed := 1 },
       Op.findUnique e.id :: logOps ++ [Op.update e.id d])
    | none =>
      (store ++ [mkListing d],
       { newListings := 1, totalProcessed := 1 },
       [Op.findUnique e.id, Op.create d])

/-! ## C8: documents without an identifier -/

/-- C8: a raw document with a falsy identifier is counted as skipped and
triggers no persistence operation at all — no lookup, no create, no
update — and leaves the table unchanged. -/
theorem missing_id_never_persists :
    ∀ (store : Store) (it : RawItem), it.id = "" →
      processItem store it =
        (store, { skippedListings := 1, totalProcessed := 1 }, []) := by
  intro store it h
  have hid : (extract it).id = "" := h
  simp [processItem, hid]

/-- C8 witness: the all-defaults document has no id and is skipped. -/
theorem missing_id_never_persists_witness :
    processItem [] ({} : RawItem) =
      ([], { skippedListings := 1, totalProcessed := 1 }, []) :=
  missing_id_never_persists [] ({} : RawItem) rfl

/-! ## C1: price-history reconciliation -/

/-- Is an operation a `PriceHistory` insert? -/
def isHistoryOp : Op → Bool
  | .appendPriceHistory _ _ => true
  | _ => false

/-- C1 (code evidence): the import loop NEVER appends a `PriceHistory`
row — for every table state and raw document the emitted operation list
contains no `appendPriceHistory` — even on the spec's worked price-change
input (existing `"1200.00"`, new amount `"1250.00"`), where the change is
detected and logged but only the `Listing` row is updated. -/
theorem import_never_appends_price_history :
    (∀ (store : Store) (it : RawItem),
      ((processItem store it).2.2.filter isHistoryOp) = []) ∧
    (processItem [{ id := "L1", price := "1200.00" }]
        { id := "L1", listing_price_amount := "1250.00" }).2.2 =
      [Op.findUnique "L1",
       Op.logPriceChange "L1" "1200.00" "1250.00",
       Op.update "L1" (mkDbData (extract { id := "L1", listing_price_amount := "1250.00" }))] := by
  constructor
  · intro store it
    simp only [processItem]
    split
    · rfl
    · split
      · split <;> simp [isHistoryOp]
      · simp [isHistoryOp]
  · decide

/-! ## C2: category on re-import -/

/-- The `findMany` filter of `categorizeAllListings`
(`src/src/categorize-listings.ts` lines 161–167): records whose
`ai_category_v1` is `''` or `null`. -/
def needsCategorization (l : ListingRec) : Bool :=
  l.ai_category_v1 == some "" || l.ai_category_v1 == none

/-- The re-classification pass's selection of records. -/
def selectForCategorization (store : Store) : Store :=
  store.filter needsCategorization

/-- C2 counterexample: a persisted listing with the non-empty category
`"other"` is re-imported (same id, unchanged price) with a description
that the deterministic categorizer maps to `"studio apartment"` — the
update path overwrites the non-empty persisted category, refuting the
claim that re-importing never forces a new category. -/
theorem category_overwritten_counterexample :
    ((processItem
        [{ id := "L1", price := "1200.00", ai_category_v1 := some "other" }]
        { id := "L1", listing_price_amount := "1200.00",
          redacted_text := "Cozy studio apartment downtown" }).1.map
      (fun r => r.ai_category_v1)) = [some "studio apartment"] ∧
    ("other" : String) ≠ "" := by decide

/-- C2 (amended): the import path unconditionally recomputes
`ai_category_v1` with the deterministic categorizer and writes it on every
update of an existing listing, overwriting any previously persisted value;
the explicit re-classification pass is the one that targets exactly the
records whose category is absent or empty. -/
theorem category_recomputed_on_every_import :
    (∀ (store : Store) (it : RawItem) (l : ListingRec),
      findListing store (extract it).id = some l → (extract it).id ≠ "" →
      Op.update (extract it).id (mkDbData (extract it)) ∈ (processItem store it).2.2 ∧
      (mkDbData (extract it)).ai_category_v1 =
        determineListingCategory (extract it).description (extract it).bedrooms) ∧
    (∀ (store : Store) (l : ListingRec),
      l ∈ selectForCategorization store ↔
        l ∈ store ∧ (l.ai_category_v1 = some "" ∨ l.ai_category_v1 = none)) := by
  constructor
  · intro store it l hfind hid
    constructor
    · simp only [processItem, hfind, if_neg hid]
      split <;> simp
    · rfl
  · intro store l
    simp [selectForCategorization, needsCategorization, List.mem_filter,
      or_comm]

/-- C2 witness: the amended statement applied at a concrete store and
document. -/
theorem category_recomputed_on_every_import_witness :
    Op.update (extract ({ id := "L2" } : RawItem)).id
        (mkDbData (extract ({ id := "L2" } : RawItem))) ∈
      (processItem [{ id := "L2", price := "0.00" }] ({ id := "L2" } : RawItem)).2.2 ∧
    ({ id := "X", price := "1.00" } : ListingRec) ∈
      selectForCategorization [{ id := "X", price := "1.00" }] :=
  ⟨(category_recomputed_on_every_import.1
      [{ id := "L2", price := "0.00" }] { id := "L2" } { id := "L2", price := "0.00" }
      (by decide) (by decide)).1,
   (category_recomputed_on_every_import.2
      [{ id := "X", price := "1.00" }] { id := "X", price := "1.00" }).mpr
    ⟨by decide, Or.inr rfl⟩⟩

/-! ## C4: sparse-merge update semantics -/

/-- C4: on update, every guarded candidate field is written exactly when
it is present (non-empty / non-null / non-zero as applicable to its
guard) and otherwise leaves the persisted value untouched; in particular
the spec's worked example — existing `{city: "Halifax", bedrooms: 2}`
merged with candidate `{city: "", bedrooms: 3}` — yields
`{city: "Halifax", bedrooms: 3}`. -/
theorem sparse_merge_semantics :
    (∀ (r : ListingRec) (e : Extracted),
      (applyUpdate r (mkDbData e)).listingTitle =
        (if e.listingTitle = "" then r.listingTitle else some e.listingTitle) ∧
      (applyUpdate r (mkDbData e)).city =
        (if e.city = "" then r.city else some e.city) ∧
      (applyUpdate r (mkDbData e)).state =
        (if e.state = "" then r.state else some e.state) ∧
      (applyUpdate r (mkDbData e)).postalCode =
        (if e.postalCode = "" then r.postalCode else some e.postalCode) ∧
      (applyUpdate r (mkDbData e)).streetAddress =
        (if e.streetAddress = "" then r.streetAddress else some e.streetAddress) ∧
      (applyUpdate r (mkDbData e)).description =
        (if e.description = "" then r.description else some e.description) ∧
      (applyUpdate r (mkDbData e)).latitude =
        (match e.latitude with | some q => some q | none => r.latitude) ∧
      (applyUpdate r (mkDbData e)).longitude =
        (match e.longitude with | some q => some q | none => r.longitude) ∧
      (applyUpdate r (mkDbData e)).bedrooms =
        (if truthyN e.bedrooms then e.bedrooms else r.bedrooms) ∧
      (applyUpdate r (mkDbData e)).bathrooms =
        (if truthyN e.bathrooms then e.bathrooms else r.bathrooms) ∧
      (applyUpdate r (mkDbData e)).amenities =
        (if e.amenities = [] then r.amenities else e.amenities) ∧
      (applyUpdate r (mkDbData e)).availableDate =
        (match e.availableDate with | some d => some d | none => r.availableDate) ∧
      (applyUpdate r (mkDbData e)).imageUrl =
        (if e.imageUrl = "" then r.imageUrl else some e.imageUrl) ∧
      (applyUpdate r (mkDbData e)).listedDate =
        (if e.creationTime = "" then r.listedDate else some e.creationTime)) ∧
    (applyUpdate { id := "H1", price := "1200.00", city := some "Halifax", bedrooms := some 2 }
        (mkDbData { city := "", bedrooms := some 3 })).city = some "Halifax" ∧
    (applyUpdate { id := "H1", price := "1200.00", city := some "Halifax", bedrooms := some 2 }
        (mkDbData { city := "", bedrooms := some 3 })).bedrooms = some 3 := by
  refine ⟨fun r e => ?_, by decide, by decide⟩
  simp only [applyUpdate, mkDbData]
  refine ⟨?_, ?_, ?_, ?_, ?_, ?_, ?_, ?_, ?_, ?_, ?_, ?_, ?_, ?_⟩
  · by_cases h : e.listingTitle = "" <;> simp [h]
  · by_cases h : e.city = "" <;> simp [h]
  · by_cases h : e.state = "" <;> simp [h]
  · by_cases h : e.postalCode = "" <;> simp [h]
  · by_cases h : e.streetAddress = "" <;> simp [h]
  · by_cases h : e.description = "" <;> simp [h]
  · trivial
  · trivial
  · cases hb : e.bedrooms with
    | none => simp [truthyN]
    | some n => by_cases h : n = 0 <;> simp [truthyN, h]
  · cases hb : e.bathrooms with
    | none => simp [truthyN]
    | some n => by_cases h : n = 0 <;> simp [truthyN, h]
  · by_cases h : e.amenities = [] <;> simp [h, List.length_pos]
  · trivial
  · by_cases h : e.imageUrl = "" <;> simp [h]
  · by_cases h : e.creationTime = "" <;> simp [h]

/-! ## The classifier response parser
(`src/src/categorize-listings.ts` lines 81–112, 115–147, 195–227) -/

/-- The closed category vocabulary (`VALID_CATEGORIES`). -/
def VALID_CATEGORIES : List String :=
  ["airbnb", "studio apartment", "1bdr apartment", "2bdr apartment",
   "3bdr apartment", "4bdr apartment", "bedroom", "bed", "other", "unknown"]

/-- Membership of a normalized line in the vocabulary. -/
def validCategoryL (c : List Char) : Bool :=
  VALID_CATEGORIES.any fun v => v.toList == c

/-- Greedy `\s*(.+)$` on the tail of a line: consume as much whitespace as
possible, then capture a non-empty remainder containing no line
terminator; on failure backtrack one whitespace character at a time. -/
def matchRest : List Char → Option (List Char)
  | [] => none
  | c :: cs =>
    if isJsWs c then
      match matchRest cs with
      | some r => some r
      | none =>
        if (c :: cs).all (fun x => !isLineTerm x) then some (c :: cs) else none
    else if (c :: cs).all (fun x => !isLineTerm x) then some (c :: cs) else none

/-- Lines 92–97: `line.match(/^\d+\.\s*(.+)$/) || line.match(/^(.+)$/)`,
then `match[1].trim().toLowerCase()`; `none` when both regexes fail. -/
def extractCategory (line : List Char) : Option (List Char) :=
  let ordCap : Option (List Char) :=
    let ds := line.takeWhile Char.isDigit
    if ds.isEmpty then none
    else
      match line.drop ds.length with
      | '.' :: tail => matchRest tail
      | _ => none
  match ordCap with
  | some cap => some (toLowerL (trimL cap))
  | none =>
    if !line.isEmpty && line.all (fun x => !isLineTerm x) then
      some (toLowerL (trimL line))
    else none

/-- The validation loop of `parseAIResponse` (lines 85–105) over the split
lines: a missing or empty line throws the count-mismatch error, a line no
regex matches throws the format error, a normalized line outside the
vocabulary throws the vocabulary error; otherwise one category per line. -/
def parseAIResponseLines : List (List Char) → Nat → Except String (List (List Char))
  | _, 0 => .ok []
  | [], _ + 1 => .error "missing response line"
  | l :: ls, b + 1 =>
    if l = [] then .error "missing response line"
    else
      match extractCategory l with
      | none => .error "invalid response format"
      | some cat =>
        if validCategoryL cat then
          match parseAIResponseLines ls b with
          | .ok cs => .ok (cat :: cs)
          | .error e => .error e
        else .error "invalid category"

/-- `parseAIResponse(response, batchSize)`: split the trimmed response on
newlines and validate the first `batchSize` lines. -/
def parseAIResponse (response : List Char) (batchSize : Nat) : Except String (List (List Char)) :=
  parseAIResponseLines (splitLinesL (trimL response)) batchSize

/-- Equality of parse results is decidable (needed to evaluate the parser
on concrete responses). -/
instance {α β : Type} [DecidableEq α] [DecidableEq β] : DecidableEq (Except α β) := fun a b => by
  cases a with
  | ok x =>
    cases b with
    | ok y => exact if h : x = y then .isTrue (by rw [h]) else .isFalse (by simp [h])
    | error e => exact .isFalse (by simp)
  | error d =>
    cases b with
    | ok y => exact .isFalse (by simp)
    | error e => exact if h : d = e then .isTrue (by rw [h]) else .isFalse (by simp [h])

/-- Did a parse succeed? -/
def isOkE {α β : Type} : Except α β → Bool
  | .ok _ => true
  | .error _ => false

/-- Does this response line normalize (ordinal stripped, lower-cased,
trimmed) to a member of the closed vocabulary?  The specification's
per-line acceptance condition. -/
def lineYieldsValid (l : List Char) : Bool :=
  match extractCategory l with
  | some c => validCategoryL c
  | none => false

/-- Are the first `B` response lines all present and valid? -/
def firstLinesValid : List (List Char) → Nat → Bool
  | _, 0 => true
  | [], _ + 1 => false
  | l :: ls, b + 1 => lineYieldsValid l && firstLinesValid ls b

/-- The normalized categories of the first `B` lines. -/
def takeCats : List (List Char) → Nat → List (List Char)
  | _, 0 => []
  | [], _ + 1 => []
  | l :: ls, b + 1 => (extractCategory l).getD [] :: takeCats ls b

/-- The parser succeeds exactly when the first `B` lines are all present
and normalize into the vocabulary. -/
theorem parseLines_isOk_iff (ls : List (List Char)) :
    ∀ B, isOkE (parseAIResponseLines ls B) = firstLinesValid ls B := by
  induction ls with
  | nil => intro B; cases B <;> rfl
  | cons l ls ih =>
    intro B
    cases B with
    | zero => rfl
    | succ b =>
      simp only [parseAIResponseLines, firstLinesValid]
      by_cases hl : l = []
      · subst hl
        simp [lineYieldsValid, isOkE, extractCategory]
      · rw [if_neg hl]
        cases hc : extractCategory l with
        | none => simp [lineYieldsValid, hc, isOkE]
        | some cat =>
          simp only [lineYieldsValid, hc]
          cases hv : validCategoryL cat with
          | false => simp [hv, isOkE]
          | true =>
            simp only [hv, if_true, Bool.true_and]
            rw [← ih b]
            cases hr : parseAIResponseLines ls b <;> simp [hr, isOkE]

/-- On success the parser returns exactly the normalized categories of the
first `B` lines — one per input, surplus lines never consulted. -/
theorem parseLines_ok_eq (ls : List (List Char)) :
    ∀ B, firstLinesValid ls B = true →
      parseAIResponseLines ls B = .ok (takeCats ls B) ∧ (takeCats ls B).length = B := by
  induction ls with
  | nil =>
    intro B hB
    cases B with
    | zero => exact ⟨rfl, rfl⟩
    | succ b => cases hB
  | cons l ls ih =>
    intro B hB
    cases B with
    | zero => exact ⟨rfl, rfl⟩
    | succ b =>
      simp only [firstLinesValid, Bool.and_eq_true] at hB
      obtain ⟨h1, h2⟩ := hB
      obtain ⟨ihe, ihl⟩ := ih b h2
      simp only [lineYieldsValid] at h1
      cases hc : extractCategory l with
      | none => rw [hc] at h1; cases h1
      | some cat =>
        rw [hc] at h1
        have hl : l ≠ [] := by
          intro he
          subst he
          rw [show extractCategory [] = none from rfl] at hc
          cases hc
        have h1' : validCategoryL cat = true := h1
        constructor
        · simp [parseAIResponseLines, if_neg hl, hc, h1', ihe, takeCats]
        · simp [takeCats, List.length_cons, hc, ihl]

/-- `prisma.listing.update({ where: { id }, data: { ai_category_v1 } })`
for one map entry of the orchestration loop (lines 204–210). -/
def setCategory (store : Store) (id cat : String) : Store :=
  store.map fun l => if l.id = id then { l with ai_category_v1 := some cat } else l

/-- One orchestration batch (lines 199–226): parse the oracle response
for the batch; on success update every listing of the batch with its
category, on any parse error catch it and leave the store untouched. -/
def applyBatch (store : Store) (batch : List ListingRec) (response : List Char) : Store :=
  match parseAIResponse response batch.length with
  | .ok cats =>
    (batch.zip cats).foldl (fun st p => setCategory st p.1.id (String.mk p.2)) store
  | .error _ => store

/-- C3: for a batch of size `B`, the parse succeeds — producing exactly
`B` categories — precisely when every one of the first `B` response lines
normalizes (ordinal prefix stripped, lower-cased, trimmed) into the closed
vocabulary; otherwise the whole batch fails with an error and no category
mapping from it is applied to storage. -/
theorem classifier_batch_all_or_nothing :
    (∀ (r : List Char) (B : Nat),
      isOkE (parseAIResponse r B) = firstLinesValid (splitLinesL (trimL r)) B) ∧
    (∀ (r : List Char) (B : Nat) (cats : List (List Char)),
      parseAIResponse r B = .ok cats → cats.length = B) ∧
    (∀ (store : Store) (batch : List ListingRec) (r : List Char),
      isOkE (parseAIResponse r batch.length) = false →
      applyBatch store batch r = store) := by
  refine ⟨fun r B => parseLines_isOk_iff _ B, fun r B cats h => ?_, fun store batch r h => ?_⟩
  · have hok : isOkE (parseAIResponse r B) = true := by rw [h]; rfl
    have hval : firstLinesValid (splitLinesL (trimL r)) B = true := by
      rw [← parseLines_isOk_iff]
      exact hok
    obtain ⟨he, hlen⟩ := parseLines_ok_eq (splitLinesL (trimL r)) B hval
    have h' : parseAIResponseLines (splitLinesL (trimL r)) B = .ok cats := h
    rw [he] at h'
    injection h' with h''
    rw [← h'']
    exact hlen
  · simp only [applyBatch]
    cases hp : parseAIResponse r batch.length with
    | ok cats => rw [hp] at h; cases h
    | error e => rfl

/-- C3 witness: a valid two-line response parses to two categories, and a
batch whose response fails validation leaves the store unchanged. -/
theorem classifier_batch_all_or_nothing_witness :
    (["airbnb".toList, "bed".toList] : List (List Char)).length = 2 ∧
    applyBatch [{ id := "W1", price := "1.00" }] [{ id := "W1", price := "1.00" }]
      "not a category".toList = [{ id := "W1", price := "1.00" }] :=
  ⟨classifier_batch_all_or_nothing.2.1 "1. airbnb\nbed".toList 2
      ["airbnb".toList, "bed".toList] (by decide),
   classifier_batch_all_or_nothing.2.2 [{ id := "W1", price := "1.00" }]
      [{ id := "W1", price := "1.00" }] "not a category".toList (by decide)⟩

/-- C10: whenever the first `B` lines of the response are valid, parsing
succeeds with exactly `B` categories no matter how many further lines the
response carries — surplus lines (even invalid ones) are silently
ignored, as on the concrete four-line response parsed with `B = 2`. -/
theorem classifier_ignores_surplus_lines :
    (∀ (r : List Char) (B : Nat),
      firstLinesValid (splitLinesL (trimL r)) B = true →
      parseAIResponse r B = .ok (takeCats (splitLinesL (trimL r)) B) ∧
      (takeCats (splitLinesL (trimL r)) B).length = B) ∧
    parseAIResponse "1. airbnb\n2. bed\n3. unknown\nextra commentary".toList 2 =
      .ok ["airbnb".toList, "bed".toList] := by
  exact ⟨fun r B h => parseLines_ok_eq (splitLinesL (trimL r)) B h, by decide⟩

/-- C10 witness: the surplus-tolerance statement applied at a concrete
two-line response parsed with batch size one. -/
theorem classifier_ignores_surplus_lines_witness :
    parseAIResponse "unknown\njunk line".toList 1 =
      .ok (takeCats (splitLinesL (trimL "unknown\njunk line".toList)) 1) ∧
    (takeCats (splitLinesL (trimL "unknown\njunk line".toList)) 1).length = 1 :=
  classifier_ignores_surplus_lines.1 "unknown\njunk line".toList 1 (by decide)
